import Mathlib

/-!
Shallow embedding of the support-chat page (`src/pages/Home.tsx`) of the
support-bot repository, together with theorems settling the spec claims.

Conventions of the embedding:
* JS `Date` values are modelled as their epoch-millisecond count (`Nat`);
  every place the source calls `new Date()` the model takes the current
  time as an explicit parameter.
* JS strings are Lean `String`s; `slice(0, n)` is taking the first `n`
  characters; `trim()` is `String.trim`.
* JS truthiness on strings is the test against `""`; truthiness on an
  optional object is `Option.isSome`.
* The opaque `any[]` source records carried by agent responses are
  modelled as `List String` (the program never inspects them).
* React `useState` state is gathered in an explicit `ChatState` record and
  each event handler becomes a state-transformer function.
-/

namespace SupportChat

/-- The `role` field of a chat message: `'agent' | 'user'`. -/
inductive Role where
  | agent
  | user
deriving DecidableEq, Repr

/-- The `Message` interface of `Home.tsx`: id, role, content, timestamp,
and the optional agent-response extras. -/
structure Message where
  id : String
  role : Role
  content : String
  timestamp : Nat
  confidence : Option Rat := none
  sources : Option (List String) := none
  suggested_followup : Option (List String) := none
deriving DecidableEq, Repr

/-- The `Conversation` interface of `Home.tsx`. -/
structure Conversation where
  id : String
  title : String
  preview : String
  timestamp : Nat
  messages : List Message
deriving DecidableEq, Repr

/-- JS `s.slice(0, n)`: the first `n` characters of `s` (all of `s` when
it is shorter). -/
def jsSlice (s : String) (n : Nat) : String :=
  String.mk (s.data.take n)

/-- The truncation pattern used for titles and previews in
`addMessageToConversation`:
`content.slice(0, n) + (content.length > n ? '...' : '')`. -/
def truncateWithEllipsis (n : Nat) (s : String) : String :=
  jsSlice s n ++ (if s.length > n then "..." else "")

/-- Content of the welcome message created by `createNewConversation`. -/
def welcomeText : String :=
  "Hi! I'm here to help. Ask me anything about our products and services."

/-- The welcome `Message` built inside `createNewConversation`. -/
def welcomeMessage (msgId : String) (now : Nat) : Message :=
  { id := msgId, role := .agent, content := welcomeText, timestamp := now }

/-- `createNewConversation` from `Home.tsx`: a fresh conversation with the
hardcoded title `'New Conversation'`, the hardcoded preview
`'Hi! I'm here to help...'` and the single welcome message. -/
def createNewConversation (id msgId : String) (now : Nat) : Conversation :=
  { id := id
    title := "New Conversation"
    preview := "Hi! I'm here to help..."
    timestamp := now
    messages := [welcomeMessage msgId now] }

/-- The per-conversation update performed inside the `map` of
`addMessageToConversation` on the conversation whose id matches:
append the message, derive the title from the first user message while the
title is still `'New Conversation'`, always rewrite the preview from the
appended message, and refresh the timestamp. -/
def appendMessage (conv : Conversation) (message : Message) (now : Nat) : Conversation :=
  let updatedMessages := conv.messages ++ [message]
  let title :=
    if message.role = Role.user ∧ conv.title = "New Conversation" then
      truncateWithEllipsis 40 message.content
    else conv.title
  let preview := truncateWithEllipsis 60 message.content
  { conv with
      messages := updatedMessages
      title := title
      preview := preview
      timestamp := now }

/-- `addMessageToConversation` from `Home.tsx`: map over the stored
conversations, updating the one whose id matches. -/
def addMessageToConversation (convs : List Conversation) (conversationId : String)
    (message : Message) (now : Nat) : List Conversation :=
  convs.map fun conv =>
    if conv.id = conversationId then appendMessage conv message now else conv

/-- A sequence of appends to a single conversation, each with its own
`new Date()` time. -/
def appendAll (conv : Conversation) (ms : List (Message × Nat)) : Conversation :=
  ms.foldl (fun c p => appendMessage c p.1 p.2) conv

/-- The first message with role `user` in a list of messages. -/
def firstUserMessage (ms : List Message) : Option Message :=
  ms.find? fun m => decide (m.role = Role.user)

/-- The `status` field of a `SupportResponse`: `'success' | 'error'`. -/
inductive RespStatus where
  | success
  | error
deriving DecidableEq, Repr

/-- The `SupportResult` interface of `Home.tsx`. -/
structure SupportResult where
  answer : String
  sources : List String
  confidence : Rat
  suggested_followup : List String
deriving DecidableEq, Repr

/-- The `SupportResponse` interface of `Home.tsx` (the optional metadata is
never read by the page and is omitted). -/
structure SupportResponse where
  status : RespStatus
  result : SupportResult
deriving DecidableEq, Repr

/-- Modelled from the spec: the normalized result returned by the external
`callAIAgent` utility (`@/utils/aiAgent`, not under `src/`), as consumed by
`handleSendMessage`: a `success` flag, an optional response payload, and an
optional error string. -/
structure AgentCallResult where
  success : Bool
  response : Option SupportResponse := none
  error : Option String := none
deriving DecidableEq, Repr

/-- How one `await callAIAgent(...)` terminates: it either resolves with a
normalized result or throws/rejects (the `catch` branch). -/
inductive CallOutcome where
  | resolved (result : AgentCallResult)
  | thrown
deriving DecidableEq, Repr

/-- The reactive page state of the `Home` component that the claims are
about: conversation list, active-conversation id, input text, and the
typing/loading flag. -/
structure ChatState where
  conversations : List Conversation
  activeConversationId : String
  inputValue : String
  isTyping : Bool
deriving DecidableEq, Repr

/-- `conversations.find(c => c.id === activeConversationId)` — the active
conversation accessor of `Home`. -/
def activeConversation (st : ChatState) : Option Conversation :=
  st.conversations.find? fun c => decide (c.id = st.activeConversationId)

/-- Models the host primitive `String.prototype.trim`: strip leading and
trailing whitespace characters. -/
def jsTrim (s : String) : String :=
  String.mk (((s.data.dropWhile Char.isWhitespace).reverse.dropWhile
    Char.isWhitespace).reverse)

/-- `const textToSend = messageText || inputValue.trim()` — JS `||` falls
back whenever `messageText` is `undefined` or the empty string. -/
def textToSend (st : ChatState) (messageText : Option String) : String :=
  match messageText with
  | some t => if t = "" then jsTrim st.inputValue else t
  | none => jsTrim st.inputValue

/-- The user `Message` built by `handleSendMessage` before the call. -/
def mkUserMessage (id content : String) (t : Nat) : Message :=
  { id := id, role := .user, content := content, timestamp := t }

/-- The agent `Message` built in the success branch of
`handleSendMessage`, carrying answer, confidence, sources and follow-ups
from the response. -/
def successMessage (resp : SupportResponse) (id : String) (t : Nat) : Message :=
  { id := id
    role := .agent
    content := resp.result.answer
    timestamp := t
    confidence := some resp.result.confidence
    sources := some resp.result.sources
    suggested_followup := some resp.result.suggested_followup }

/-- Fallback text of the `else` branch (`result.error || '...'` with the
generic default). -/
def genericErrorText : String := "Sorry, I encountered an error. Please try again."

/-- Fallback text of the `catch` branch. -/
def genericThrownText : String := "Sorry, something went wrong. Please try again."

/-- The fallback agent `Message` built in the `else` branch:
`content: result.error || 'Sorry, I encountered an error. Please try again.'`
(JS `||` ignores an absent or empty error string). -/
def errorReplyMessage (err : Option String) (id : String) (t : Nat) : Message :=
  { id := id
    role := .agent
    content :=
      match err with
      | some e => if e = "" then genericErrorText else e
      | none => genericErrorText
    timestamp := t }

/-- The fallback agent `Message` built in the `catch` branch. -/
def thrownReplyMessage (id : String) (t : Nat) : Message :=
  { id := id, role := .agent, content := genericThrownText, timestamp := t }

/-- The agent-authored message `handleSendMessage` appends after the call,
as a function of how the call terminated. The branch condition is
`result.success && result.response` (response present and truthy). -/
def agentReplyMessage (outcome : CallOutcome) (id : String) (t : Nat) : Message :=
  match outcome with
  | .resolved r =>
    match r.response, r.success with
    | some resp, true => successMessage resp id t
    | some _, false => errorReplyMessage r.error id t
    | none, _ => errorReplyMessage r.error id t
  | .thrown => thrownReplyMessage id t

/-- A call outcome that takes the `else` (failure-shaped result) or
`catch` (thrown) branch of `handleSendMessage`. -/
def isFailureOutcome : CallOutcome → Bool
  | .resolved r => !(r.success && r.response.isSome)
  | .thrown => true

/-- Spec-side description of the fallback text: the server-supplied error
string when present and non-empty, otherwise the generic error text for a
failure-shaped result or the generic catch text for a thrown call. -/
def fallbackContentSpec : CallOutcome → String
  | .resolved r =>
    match r.error with
    | some e => if e = "" then genericErrorText else e
    | none => genericErrorText
  | .thrown => genericThrownText

/-- Whether an invocation of `handleSendMessage` passes the input guard
(and hence initiates an outbound agent call):
`if (!textToSend || !activeConversationId) return`. -/
def sendInitiatesCall (st : ChatState) (messageText : Option String) : Bool :=
  !(decide (textToSend st messageText = "") || decide (st.activeConversationId = ""))

/-- `handleSendMessage` from `Home.tsx`, run to completion: guard, append
the user message, clear the input, set the typing flag, then append the
reply determined by the call outcome and clear the typing flag
(`finally`). Message ids and the four `Date.now()` / `new Date()` readings
are explicit parameters. -/
def handleSendMessage (st : ChatState) (messageText : Option String)
    (outcome : CallOutcome) (userMsgId agentMsgId : String)
    (t1 t2 t3 t4 : Nat) : ChatState :=
  if textToSend st messageText = "" ∨ st.activeConversationId = "" then st
  else
    let convs1 := addMessageToConversation st.conversations st.activeConversationId
      (mkUserMessage userMsgId (textToSend st messageText) t1) t2
    { st with
        conversations := addMessageToConversation convs1 st.activeConversationId
          (agentReplyMessage outcome agentMsgId t3) t4
        inputValue := ""
        isTyping := false }

/-- The state of `Home` after the synchronous prefix of
`handleSendMessage` (user message appended, input cleared, typing flag
set) while the `await callAIAgent(...)` is still pending. -/
def handleSendMessagePending (st : ChatState) (messageText : Option String)
    (userMsgId : String) (t1 t2 : Nat) : ChatState :=
  if textToSend st messageText = "" ∨ st.activeConversationId = "" then st
  else
    { st with
        conversations := addMessageToConversation st.conversations st.activeConversationId
          (mkUserMessage userMsgId (textToSend st messageText) t1) t2
        inputValue := ""
        isTyping := true }

/-- The textarea `onChange` handler: accept the new value only when it has
at most 500 characters. -/
def handleInputChange (st : ChatState) (newValue : String) : ChatState :=
  if newValue.length ≤ 500 then { st with inputValue := newValue } else st

/-- The `send-suggested-question` event listener: `setInputValue(e.detail)`
with no length check. -/
def handleSuggestedQuestion (st : ChatState) (detail : String) : ChatState :=
  { st with inputValue := detail }

/-- A keyboard event as far as `handleKeyDown` inspects it. -/
structure KeyEvent where
  key : String
  shiftKey : Bool
deriving DecidableEq, Repr

/-- Whether `handleKeyDown` invokes `handleSendMessage()`:
`e.key === 'Enter' && !e.shiftKey`. It never consults the typing flag. -/
def keyDownInvokesSend (e : KeyEvent) : Bool :=
  decide (e.key = "Enter") && !e.shiftKey

/-- Whether a keydown event starts an outbound agent call:
`handleKeyDown` calls `handleSendMessage()` with no argument, whose guard
then decides. -/
def keyDownStartsCall (st : ChatState) (e : KeyEvent) : Bool :=
  keyDownInvokesSend e && sendInitiatesCall st none

/-- The `disabled` prop of the send button:
`!inputValue.trim() || isTyping`. -/
def sendButtonDisabled (st : ChatState) : Bool :=
  decide (jsTrim st.inputValue = "") || st.isTyping

/-- Whether the quick-reply chips are rendered:
`activeConversation?.messages.length === 1 && !isTyping`. -/
def quickRepliesShown (st : ChatState) : Bool :=
  (match activeConversation st with
   | some c => decide (c.messages.length = 1)
   | none => false) && !st.isTyping

/-! ### Persistence: local storage, ISO timestamps, and the load effect

`JSON.stringify(conversations)` turns each `Date` into its ISO string
(via `Date.prototype.toJSON`) and keeps every other field as plain JSON;
the load effect re-parses and runs `new Date(...)` over the two timestamp
positions. We work with the parsed stored form (`StoredConversation`),
since the JSON string encode/decode of that form is the host's
guaranteed-inverse pair, and model the host's `toISOString` / `new Date`
pair as a computable injective numeral encoding of epoch milliseconds
with a computable inverse — the property of the pair that the host
guarantees for valid dates. -/

/-- Decimal digit character for `d < 10`. -/
def digitChar (d : Nat) : Char := Char.ofNat (48 + d)

/-- Fuelled digit extraction; `fuel ≥ n` suffices since `n / 10 < n`. -/
def natDigitsAux : Nat → Nat → List Char
  | 0, _ => []
  | _ + 1, 0 => []
  | fuel + 1, n + 1 => digitChar ((n + 1) % 10) :: natDigitsAux fuel ((n + 1) / 10)

/-- The digits of `n`, least significant first (empty for `0`). -/
def natDigits (n : Nat) : List Char := natDigitsAux n n

/-- Read back a digit list produced by `natDigits`. -/
def digitsToNat : List Char → Nat
  | [] => 0
  | c :: cs => (c.toNat - 48) + 10 * digitsToNat cs

/-- Models the host primitive `Date.prototype.toISOString` (composed with
`Date.prototype.toJSON` during `JSON.stringify`): an injective string
encoding of the epoch-millisecond value. -/
def isoOfDate (d : Nat) : String := String.mk (natDigits d)

/-- Models the host primitive `new Date(isoString)`: recover the
epoch-millisecond value from its string encoding. -/
def dateOfIso (s : String) : Nat := digitsToNat s.data

/-- A `Message` as it sits in local storage: the timestamp is an ISO
string, every other field is unchanged. -/
structure StoredMessage where
  id : String
  role : Role
  content : String
  timestamp : String
  confidence : Option Rat := none
  sources : Option (List String) := none
  suggested_followup : Option (List String) := none
deriving DecidableEq, Repr

/-- A `Conversation` as it sits in local storage. -/
structure StoredConversation where
  id : String
  title : String
  preview : String
  timestamp : String
  messages : List StoredMessage
deriving DecidableEq, Repr

/-- What `JSON.stringify` does to one message: only the `Date` changes
representation. -/
def serializeMessage (m : Message) : StoredMessage :=
  { id := m.id
    role := m.role
    content := m.content
    timestamp := isoOfDate m.timestamp
    confidence := m.confidence
    sources := m.sources
    suggested_followup := m.suggested_followup }

/-- What `JSON.stringify` does to one conversation. -/
def serializeConversation (c : Conversation) : StoredConversation :=
  { id := c.id
    title := c.title
    preview := c.preview
    timestamp := isoOfDate c.timestamp
    messages := c.messages.map serializeMessage }

/-- The save effect's payload: `JSON.stringify(conversations)`. -/
def serializeConversations (cs : List Conversation) : List StoredConversation :=
  cs.map serializeConversation

/-- `{...msg, timestamp: new Date(msg.timestamp)}` from the load effect. -/
def reviveMessage (m : StoredMessage) : Message :=
  { id := m.id
    role := m.role
    content := m.content
    timestamp := dateOfIso m.timestamp
    confidence := m.confidence
    sources := m.sources
    suggested_followup := m.suggested_followup }

/-- `{...conv, timestamp: new Date(conv.timestamp), messages: ...}` from
the load effect. -/
def reviveConversation (c : StoredConversation) : Conversation :=
  { id := c.id
    title := c.title
    preview := c.preview
    timestamp := dateOfIso c.timestamp
    messages := c.messages.map reviveMessage }

/-- The load transformation applied to the parsed stored value:
`parsed.map(conv => ({...conv, timestamp: new Date(...), messages: ...}))`. -/
def loadTransform (parsed : List StoredConversation) : List Conversation :=
  parsed.map reviveConversation

/-- The component state produced by the load effect. -/
structure LoadedState where
  conversations : List Conversation
  activeConversationId : String
deriving DecidableEq, Repr

/-- The startup load `useEffect` of `Home`, with `JSON.parse` abstracted
as a (deterministic) function `parse` that either returns the parsed
conversation list or fails like the host parser does on invalid JSON.

Structure mirrored from the source: when a stored string is present, the
first `JSON.parse` and the revival run inside `try/catch` (a failure is
logged and leaves the initial empty state); the subsequent guard
`if (!stored || JSON.parse(stored).length === 0)` re-runs `JSON.parse`
*outside* any `try`, so its failure escapes the effect (`Except.error`). -/
def loadConversationsEffect (parse : String → Except String (List StoredConversation))
    (stored : Option String) (initialConv : Conversation) : Except String LoadedState :=
  match stored with
  | some s =>
    let afterTry : LoadedState :=
      match parse s with
      | .ok parsed =>
        let conversationsWithDates := loadTransform parsed
        { conversations := conversationsWithDates
          activeConversationId :=
            match conversationsWithDates with
            | c :: _ => c.id
            | [] => "" }
      | .error _ => { conversations := [], activeConversationId := "" }
    match parse s with
    | .error e => .error e
    | .ok parsed =>
      if parsed.length = 0 then
        .ok { conversations := [initialConv], activeConversationId := initialConv.id }
      else
        .ok afterTry
  | none =>
    .ok { conversations := [initialConv], activeConversationId := initialConv.id }

/-! ### Helper lemmas -/

theorem digitChar_toNat {d : Nat} (h : d < 10) : (digitChar d).toNat = 48 + d := by
  interval_cases d <;> decide

theorem digitsToNat_natDigitsAux (fuel : Nat) :
    ∀ n, n ≤ fuel → digitsToNat (natDigitsAux fuel n) = n := by
  induction fuel with
  | zero =>
    intro n hn
    interval_cases n
    rfl
  | succ fuel ih =>
    intro n hn
    match n with
    | 0 => rfl
    | m + 1 =>
      have hdiv : (m + 1) / 10 ≤ fuel := by
        have := Nat.div_lt_self (Nat.succ_pos m) (by decide : 1 < 10)
        omega
      rw [natDigitsAux, digitsToNat, ih _ hdiv,
        digitChar_toNat (Nat.mod_lt (m + 1) (by decide))]
      omega

theorem digitsToNat_natDigits (n : Nat) : digitsToNat (natDigits n) = n :=
  digitsToNat_natDigitsAux n n (Nat.le_refl n)

theorem dateOfIso_isoOfDate (d : Nat) : dateOfIso (isoOfDate d) = d :=
  digitsToNat_natDigits d

theorem reviveMessage_serializeMessage (m : Message) :
    reviveMessage (serializeMessage m) = m := by
  simp [reviveMessage, serializeMessage, dateOfIso_isoOfDate]

theorem reviveConversation_serializeConversation (c : Conversation) :
    reviveConversation (serializeConversation c) = c := by
  simp [reviveConversation, serializeConversation, dateOfIso_isoOfDate,
    List.map_map, Function.comp_def, reviveMessage_serializeMessage]

theorem appendMessage_id (conv : Conversation) (m : Message) (t : Nat) :
    (appendMessage conv m t).id = conv.id := rfl

theorem appendMessage_messages (conv : Conversation) (m : Message) (t : Nat) :
    (appendMessage conv m t).messages = conv.messages ++ [m] := rfl

theorem appendMessage_title_of_agent (conv : Conversation) (m : Message) (t : Nat)
    (h : m.role ≠ Role.user) : (appendMessage conv m t).title = conv.title := by
  simp only [appendMessage]
  rw [if_neg]
  rintro ⟨h1, -⟩
  exact h h1

theorem appendMessage_title_of_ne (conv : Conversation) (m : Message) (t : Nat)
    (h : conv.title ≠ "New Conversation") :
    (appendMessage conv m t).title = conv.title := by
  simp only [appendMessage]
  rw [if_neg]
  rintro ⟨-, h2⟩
  exact h h2

theorem appendMessage_title_of_first_user (conv : Conversation) (m : Message) (t : Nat)
    (hrole : m.role = Role.user) (htitle : conv.title = "New Conversation") :
    (appendMessage conv m t).title = truncateWithEllipsis 40 m.content := by
  simp only [appendMessage]
  rw [if_pos ⟨hrole, htitle⟩]

theorem truncateWithEllipsis_eq_self {n : Nat} {s : String} (h : ¬s.length > n) :
    truncateWithEllipsis n s = s := by
  rw [truncateWithEllipsis, if_neg h, String.append_empty, jsSlice]
  cases s with
  | mk l =>
    rw [List.take_of_length_le]
    exact Nat.le_of_not_lt h

theorem truncateWithEllipsis_length_of_gt {n : Nat} {s : String} (h : s.length > n) :
    (truncateWithEllipsis n s).length = n + 3 := by
  have hd : n < s.data.length := h
  have h3 : ("..." : String).length = 3 := rfl
  rw [truncateWithEllipsis, if_pos h, String.length_append, jsSlice, String.length_mk,
    List.length_take, h3]
  omega

theorem eq_of_truncate40_eq_newConversation {s : String}
    (h : truncateWithEllipsis 40 s = "New Conversation") : s = "New Conversation" := by
  by_cases hl : s.length > 40
  · have h43 := truncateWithEllipsis_length_of_gt hl
    rw [h] at h43
    exact absurd h43 (by decide)
  · rw [← truncateWithEllipsis_eq_self hl, h]

theorem appendAll_title_of_ne (ms : List (Message × Nat)) (conv : Conversation)
    (h : conv.title ≠ "New Conversation") : (appendAll conv ms).title = conv.title := by
  induction ms generalizing conv with
  | nil => rfl
  | cons p ms ih =>
    obtain ⟨m, t⟩ := p
    have htitle := appendMessage_title_of_ne conv m t h
    rw [appendAll, List.foldl_cons, ← appendAll, ih _ (htitle ▸ h), htitle]

theorem appendAll_title_of_first_user (ms : List (Message × Nat)) (conv : Conversation)
    (u : Message) (htitle : conv.title = "New Conversation")
    (hfind : firstUserMessage (ms.map Prod.fst) = some u)
    (hne : u.content ≠ "New Conversation") :
    (appendAll conv ms).title = truncateWithEllipsis 40 u.content := by
  induction ms generalizing conv with
  | nil => simp [firstUserMessage] at hfind
  | cons p ms ih =>
    obtain ⟨m, t⟩ := p
    rw [appendAll, List.foldl_cons, ← appendAll]
    by_cases hrole : m.role = Role.user
    · have hum : u = m := by
        rw [firstUserMessage, List.map_cons, List.find?_cons_of_pos _ (by simp [hrole])]
          at hfind
        exact (Option.some_inj.mp hfind).symm
      subst hum
      have hset := appendMessage_title_of_first_user conv u t hrole htitle
      rw [appendAll_title_of_ne ms _ (by
        rw [hset]
        intro hcontra
        exact hne (eq_of_truncate40_eq_newConversation hcontra)), hset]
    · have hkeep := appendMessage_title_of_agent conv m t hrole
      rw [firstUserMessage, List.map_cons,
        List.find?_cons_of_neg _ (by simp [hrole])] at hfind
      exact ih _ (hkeep.trans htitle) hfind

theorem find?_addMessageToConversation (l : List Conversation) (a : String)
    (m : Message) (t : Nat) :
    (addMessageToConversation l a m t).find? (fun c => decide (c.id = a))
      = (l.find? (fun c => decide (c.id = a))).map (fun c => appendMessage c m t) := by
  induction l with
  | nil => rfl
  | cons c l ih =>
    rw [addMessageToConversation, List.map_cons]
    by_cases h : c.id = a
    · rw [if_pos h, List.find?_cons_of_pos _ (by simp [appendMessage_id, h]),
        List.find?_cons_of_pos _ (by simp [h])]
      rfl
    · rw [if_neg h, List.find?_cons_of_neg _ (by simp [h]),
        List.find?_cons_of_neg _ (by simp [h]), ← addMessageToConversation, ih]

theorem handleSendMessage_of_guard (st : ChatState) (mt : Option String)
    (outcome : CallOutcome) (uid aid : String) (t1 t2 t3 t4 : Nat)
    (h1 : textToSend st mt ≠ "") (h2 : st.activeConversationId ≠ "") :
    handleSendMessage st mt outcome uid aid t1 t2 t3 t4
      = { st with
          conversations := addMessageToConversation
            (addMessageToConversation st.conversations st.activeConversationId
              (mkUserMessage uid (textToSend st mt) t1) t2)
            st.activeConversationId (agentReplyMessage outcome aid t3) t4
          inputValue := ""
          isTyping := false } := by
  rw [handleSendMessage, if_neg (not_or.mpr ⟨h1, h2⟩)]

theorem agentReplyMessage_role (outcome : CallOutcome) (aid : String) (t : Nat) :
    (agentReplyMessage outcome aid t).role = Role.agent := by
  rcases outcome with r | _
  · rcases r with ⟨s, resp, err⟩
    cases resp <;> cases s <;> rfl
  · rfl

theorem agentReplyMessage_content_of_failure (outcome : CallOutcome) (aid : String)
    (t : Nat) (hfail : isFailureOutcome outcome = true) :
    (agentReplyMessage outcome aid t).content = fallbackContentSpec outcome := by
  rcases outcome with r | _
  · rcases r with ⟨s, resp, err⟩
    cases resp with
    | none => cases s <;> rfl
    | some p =>
      cases s with
      | false => rfl
      | true => simp [isFailureOutcome] at hfail
  · rfl

theorem activeConversation_handleSendMessage (st : ChatState) (mt : Option String)
    (outcome : CallOutcome) (uid aid : String) (t1 t2 t3 t4 : Nat) (conv : Conversation)
    (h1 : textToSend st mt ≠ "") (h2 : st.activeConversationId ≠ "")
    (hconv : activeConversation st = some conv) :
    activeConversation (handleSendMessage st mt outcome uid aid t1 t2 t3 t4)
      = some (appendMessage
          (appendMessage conv (mkUserMessage uid (textToSend st mt) t1) t2)
          (agentReplyMessage outcome aid t3) t4) := by
  rw [activeConversation] at hconv
  rw [handleSendMessage_of_guard st mt outcome uid aid t1 t2 t3 t4 h1 h2, activeConversation]
  show (addMessageToConversation
      (addMessageToConversation st.conversations st.activeConversationId
        (mkUserMessage uid (textToSend st mt) t1) t2)
      st.activeConversationId (agentReplyMessage outcome aid t3) t4).find?
        (fun c => decide (c.id = st.activeConversationId)) = _
  rw [find?_addMessageToConversation, find?_addMessageToConversation, hconv]
  rfl

theorem messages_double_append (conv : Conversation) (m1 m2 : Message) (t1 t2 : Nat) :
    (appendMessage (appendMessage conv m1 t1) m2 t2).messages
      = conv.messages ++ [m1, m2] := by
  rw [appendMessage_messages, appendMessage_messages, List.append_assoc]
  rfl

/-! ### Claim theorems -/

/-- C1 (amended): starting from a freshly created conversation, after any
sequence of message appends whose first user message `u` has content other
than the literal string `"New Conversation"`, the conversation's title
equals `u`'s content truncated to its first 40 characters with `'...'`
appended when longer — and, since this holds for the whole sequence at
once, every append after that first user message leaves the title
unchanged. (When the first user message is exactly `"New Conversation"`
the title is overwritten again by the next user message; see the
counterexample.) -/
theorem title_eq_first_user_truncation (id msgId : String) (t0 : Nat)
    (ms : List (Message × Nat)) (u : Message)
    (hfind : firstUserMessage (ms.map Prod.fst) = some u)
    (hne : u.content ≠ "New Conversation") :
    (appendAll (createNewConversation id msgId t0) ms).title
      = truncateWithEllipsis 40 u.content :=
  appendAll_title_of_first_user ms _ u rfl hfind hne

/-- Witness for C1: a 46-character first user message followed by an agent
message; the title is its 40-character truncation with ellipsis. -/
theorem title_truncation_witness :
    firstUserMessage ([(mkUserMessage "u1" "I need help with my order and my refund status" 1, 1),
        (welcomeMessage "a1" 2, 2)].map Prod.fst)
      = some (mkUserMessage "u1" "I need help with my order and my refund status" 1)
    ∧ (mkUserMessage "u1" "I need help with my order and my refund status" 1).content
        ≠ "New Conversation"
    ∧ (appendAll (createNewConversation "conv-1" "m0" 0)
        [(mkUserMessage "u1" "I need help with my order and my refund status" 1, 1),
         (welcomeMessage "a1" 2, 2)]).title
      = truncateWithEllipsis 40 "I need help with my order and my refund status" :=
  ⟨by decide, by decide,
    title_eq_first_user_truncation "conv-1" "m0" 0
      [(mkUserMessage "u1" "I need help with my order and my refund status" 1, 1),
       (welcomeMessage "a1" 2, 2)]
      (mkUserMessage "u1" "I need help with my order and my refund status" 1)
      (by decide) (by decide)⟩

/-- Counterexample to C1 as stated: when the first user message appended
to a fresh conversation is exactly `"New Conversation"`, the title-setting
condition `conv.title === 'New Conversation'` still holds at the second
user message, which overwrites the title — so the title no longer equals
the (truncation of the) first user message, and a subsequent append did
change it. -/
theorem title_second_user_overwrite :
    firstUserMessage ([(mkUserMessage "u1" "New Conversation" 1, 1),
        (mkUserMessage "u2" "Thanks" 2, 2)].map Prod.fst)
      = some (mkUserMessage "u1" "New Conversation" 1)
    ∧ truncateWithEllipsis 40 (mkUserMessage "u1" "New Conversation" 1).content
        = "New Conversation"
    ∧ (appendAll (createNewConversation "conv-1" "m0" 0)
        [(mkUserMessage "u1" "New Conversation" 1, 1)]).title = "New Conversation"
    ∧ (appendAll (createNewConversation "conv-1" "m0" 0)
        [(mkUserMessage "u1" "New Conversation" 1, 1),
         (mkUserMessage "u2" "Thanks" 2, 2)]).title = "Thanks"
    ∧ ("Thanks" : String) ≠ "New Conversation" := by
  exact ⟨by decide, by decide, by decide, by decide, by decide⟩

/-- C2: the startup load effect run on a present-but-malformed stored
value. The first `JSON.parse` failure is caught and logged inside the
`try`, but the fallback guard `if (!stored || JSON.parse(stored).length === 0)`
re-runs `JSON.parse(stored)` outside any `try`, so the effect terminates
with the thrown parse error instead of installing a fresh conversation:
evaluating the load at a parse-failing stored string yields the error. -/
theorem load_throws_on_malformed_storage :
    loadConversationsEffect (fun _ => Except.error "SyntaxError: Unexpected token")
        (some "\x7b") (createNewConversation "conv-init" "msg-init" 0)
      = Except.error "SyntaxError: Unexpected token" := rfl

/-- C8 (amended): whenever a message is appended to a conversation by
`addMessageToConversation`'s per-conversation update, the preview equals
the content of the appended message — which becomes the last message —
truncated to its first 60 characters with `'...'` appended when longer.
(A freshly created conversation instead carries a hardcoded preview; see
the counterexample.) -/
theorem preview_eq_last_appended (conv : Conversation) (m : Message) (t : Nat) :
    (appendMessage conv m t).preview = truncateWithEllipsis 60 m.content
    ∧ (appendMessage conv m t).messages.getLast? = some m := by
  refine ⟨rfl, ?_⟩
  rw [appendMessage_messages, List.getLast?_concat]

/-- Counterexample to C8 as stated: a freshly created conversation's
preview is the hardcoded string `'Hi! I'm here to help...'`, not the
60-character truncation of its last (welcome) message, whose content is
70 characters long. -/
theorem fresh_preview_mismatch :
    (createNewConversation "conv-8" "m8" 0).messages.getLast?
        = some (welcomeMessage "m8" 0)
    ∧ (createNewConversation "conv-8" "m8" 0).preview
        ≠ truncateWithEllipsis 60 (welcomeMessage "m8" 0).content := by
  exact ⟨by decide, by decide⟩

/-- C3: for every invocation of `handleSendMessage` that passes the input
guard, the typing flag is `false` once the operation completes, for every
call outcome (success, failure-shaped result, or thrown); and for the two
failure cases exactly one fallback agent message — carrying the
server-supplied error string when present and non-empty, otherwise a
generic one — is appended to the active conversation, right after the
user's message. -/
theorem send_clears_typing_and_single_fallback (st : ChatState) (mt : Option String)
    (outcome : CallOutcome) (uid aid : String) (t1 t2 t3 t4 : Nat) (conv : Conversation)
    (h1 : textToSend st mt ≠ "") (h2 : st.activeConversationId ≠ "")
    (hconv : activeConversation st = some conv) :
    (handleSendMessage st mt outcome uid aid t1 t2 t3 t4).isTyping = false
    ∧ (isFailureOutcome outcome = true →
        (activeConversation (handleSendMessage st mt outcome uid aid t1 t2 t3 t4)).map
            Conversation.messages
          = some (conv.messages
              ++ [mkUserMessage uid (textToSend st mt) t1, agentReplyMessage outcome aid t3])
        ∧ (agentReplyMessage outcome aid t3).role = Role.agent
        ∧ (agentReplyMessage outcome aid t3).content = fallbackContentSpec outcome) := by
  refine ⟨?_, fun hfail => ⟨?_, agentReplyMessage_role outcome aid t3,
    agentReplyMessage_content_of_failure outcome aid t3 hfail⟩⟩
  · rw [handleSendMessage_of_guard st mt outcome uid aid t1 t2 t3 t4 h1 h2]
  · rw [activeConversation_handleSendMessage st mt outcome uid aid t1 t2 t3 t4 conv h1 h2 hconv,
      Option.map_some', messages_double_append]

/-- Concrete state for the C3 witness. -/
def stSendFail : ChatState :=
  { conversations := [createNewConversation "conv-3" "m3" 0]
    activeConversationId := "conv-3"
    inputValue := "Where is my parcel?"
    isTyping := false }

/-- Failure-shaped outcome for the C3 witness: the call resolved but with
`success: false` and a server-supplied error string. -/
def failOutcome : CallOutcome :=
  .resolved { success := false, response := none, error := some "Service unavailable" }

/-- Witness for C3: a concrete failed call clears the typing flag and
appends the user message followed by exactly one fallback agent message. -/
theorem send_failure_witness :
    (handleSendMessage stSendFail none failOutcome "u3" "a3" 1 2 3 4).isTyping = false
    ∧ (activeConversation (handleSendMessage stSendFail none failOutcome "u3" "a3" 1 2 3 4)).map
        Conversation.messages
      = some ((createNewConversation "conv-3" "m3" 0).messages
          ++ [mkUserMessage "u3" (textToSend stSendFail none) 1,
              agentReplyMessage failOutcome "a3" 3]) := by
  have h := send_clears_typing_and_single_fallback stSendFail none failOutcome "u3" "a3"
    1 2 3 4 (createNewConversation "conv-3" "m3" 0) (by decide) (by decide) (by decide)
  exact ⟨h.1, (h.2 (by decide)).1⟩

/-- C6: for every agent call that resolves with `success: true` and a
present response payload, the operation appends — right after the user's
message — exactly one agent message whose content is the response's
answer, and whose confidence, sources and suggested follow-ups equal the
corresponding response fields unchanged. -/
theorem send_success_appends_answer (st : ChatState) (mt : Option String)
    (r : AgentCallResult) (resp : SupportResponse) (uid aid : String)
    (t1 t2 t3 t4 : Nat) (conv : Conversation)
    (h1 : textToSend st mt ≠ "") (h2 : st.activeConversationId ≠ "")
    (hconv : activeConversation st = some conv)
    (hs : r.success = true) (hr : r.response = some resp) :
    (activeConversation (handleSendMessage st mt (.resolved r) uid aid t1 t2 t3 t4)).map
        Conversation.messages
      = some (conv.messages
          ++ [mkUserMessage uid (textToSend st mt) t1, successMessage resp aid t3])
    ∧ (successMessage resp aid t3).role = Role.agent
    ∧ (successMessage resp aid t3).content = resp.result.answer
    ∧ (successMessage resp aid t3).confidence = some resp.result.confidence
    ∧ (successMessage resp aid t3).sources = some resp.result.sources
    ∧ (successMessage resp aid t3).suggested_followup
        = some resp.result.suggested_followup := by
  have hreply : agentReplyMessage (.resolved r) aid t3 = successMessage resp aid t3 := by
    rw [agentReplyMessage]
    rcases r with ⟨s, rr, err⟩
    cases hr
    cases hs
    rfl
  refine ⟨?_, rfl, rfl, rfl, rfl, rfl⟩
  rw [activeConversation_handleSendMessage st mt (.resolved r) uid aid t1 t2 t3 t4 conv
    h1 h2 hconv, Option.map_some', messages_double_append, hreply]

/-- Concrete state for the C6 witness. -/
def stSendOk : ChatState :=
  { conversations := [createNewConversation "conv-6" "m6" 0]
    activeConversationId := "conv-6"
    inputValue := ""
    isTyping := false }

/-- Successful response payload for the C6 witness. -/
def okResponse : SupportResponse :=
  { status := .success
    result := { answer := "We offer three plans starting at $10."
                sources := ["https://example.com/pricing"]
                confidence := 1
                suggested_followup := ["What does the Pro plan include?"] } }

/-- Witness for C6: a concrete successful call (submitted via the
`Pricing` quick-reply chip) appends the user message and one agent message
carrying the response fields unchanged. -/
theorem send_success_witness :
    (activeConversation (handleSendMessage stSendOk (some "Pricing")
        (.resolved { success := true, response := some okResponse, error := none })
        "u6" "a6" 1 2 3 4)).map Conversation.messages
      = some ((createNewConversation "conv-6" "m6" 0).messages
          ++ [mkUserMessage "u6" (textToSend stSendOk (some "Pricing")) 1,
              successMessage okResponse "a6" 3])
    ∧ (successMessage okResponse "a6" 3).content = okResponse.result.answer := by
  have h := send_success_appends_answer stSendOk (some "Pricing")
    { success := true, response := some okResponse, error := none } okResponse
    "u6" "a6" 1 2 3 4 (createNewConversation "conv-6" "m6" 0)
    (by decide) (by decide) (by decide) rfl rfl
  exact ⟨h.1, h.2.2.1⟩

/-- C7 (amended): the send operation is a no-op — state unchanged, no
agent call initiated — whenever the effective text is empty: that is,
when no explicit argument (or an explicit empty-string argument, which JS
`||` treats the same) is given and the input box is empty or
whitespace-only, or when the active-conversation id is empty. An explicit
non-empty whitespace-only argument, however, is truthy and is *not*
rejected (see the counterexample). -/
theorem send_noop_on_empty_or_inactive (st : ChatState) (mt : Option String)
    (outcome : CallOutcome) (uid aid : String) (t1 t2 t3 t4 : Nat)
    (h : ((mt = none ∨ mt = some "") ∧ jsTrim st.inputValue = "")
        ∨ st.activeConversationId = "") :
    handleSendMessage st mt outcome uid aid t1 t2 t3 t4 = st
    ∧ sendInitiatesCall st mt = false := by
  have hguard : textToSend st mt = "" ∨ st.activeConversationId = "" := by
    rcases h with ⟨hmt, htrim⟩ | hid
    · left
      rcases hmt with h0 | h0 <;> subst h0 <;> simp [textToSend, htrim]
    · right
      exact hid
  constructor
  · rw [handleSendMessage, if_pos hguard]
  · rcases hguard with h0 | h0 <;> simp [sendInitiatesCall, h0]

/-- Concrete state for the C7 witness: whitespace-only input box text. -/
def stNoopW : ChatState :=
  { conversations := [createNewConversation "conv-7w" "m7w" 0]
    activeConversationId := "conv-7w"
    inputValue := "   "
    isTyping := false }

/-- Witness for C7: submitting with a whitespace-only input box and no
explicit argument changes nothing and initiates no call. -/
theorem send_noop_witness :
    handleSendMessage stNoopW none CallOutcome.thrown "u7w" "a7w" 1 2 3 4 = stNoopW
    ∧ sendInitiatesCall stNoopW none = false :=
  send_noop_on_empty_or_inactive stNoopW none CallOutcome.thrown "u7w" "a7w" 1 2 3 4
    (Or.inl ⟨Or.inl rfl, by decide⟩)

/-- Concrete state for the C7 counterexample. -/
def stC7 : ChatState :=
  { conversations := [createNewConversation "conv-7" "m7" 0]
    activeConversationId := "conv-7"
    inputValue := ""
    isTyping := false }

/-- Counterexample to C7 as stated: an explicit whitespace-only argument
`' '` is truthy in JS, so `messageText || inputValue.trim()` keeps it and
the guard passes: a user message with content `' '` is appended, the agent
call is initiated, and the store changes — not a no-op. -/
theorem whitespace_argument_not_noop :
    sendInitiatesCall stC7 (some " ") = true
    ∧ (activeConversation (handleSendMessage stC7 (some " ") CallOutcome.thrown
        "u7" "a7" 1 2 3 4)).map (fun c => c.messages.map Message.content)
      = some [welcomeText, " ", genericThrownText]
    ∧ (handleSendMessage stC7 (some " ") CallOutcome.thrown "u7" "a7" 1 2 3 4).conversations
        ≠ stC7.conversations := by
  exact ⟨by decide, by decide, by decide⟩

/-- C10: every invocation of the send operation that passes the input
guard sets the input text to the empty string — also when the submitted
text came as an explicit argument, so a typed draft is discarded by
clicking a quick reply. -/
theorem send_clears_input_value (st : ChatState) (mt : Option String)
    (outcome : CallOutcome) (uid aid : String) (t1 t2 t3 t4 : Nat)
    (h1 : textToSend st mt ≠ "") (h2 : st.activeConversationId ≠ "") :
    (handleSendMessage st mt outcome uid aid t1 t2 t3 t4).inputValue = "" := by
  rw [handleSendMessage_of_guard st mt outcome uid aid t1 t2 t3 t4 h1 h2]

/-- Concrete state for the C10 witness: a non-empty draft in the input
box. -/
def stDraft : ChatState :=
  { conversations := [createNewConversation "conv-10" "m10" 0]
    activeConversationId := "conv-10"
    inputValue := "my half-typed draft"
    isTyping := false }

/-- Witness for C10: clicking the `Pricing` quick reply while a draft is
typed clears the draft. -/
theorem send_clears_input_witness :
    stDraft.inputValue ≠ ""
    ∧ (handleSendMessage stDraft (some "Pricing") CallOutcome.thrown
        "u10" "a10" 1 2 3 4).inputValue = "" :=
  ⟨by decide, send_clears_input_value stDraft (some "Pricing") CallOutcome.thrown
    "u10" "a10" 1 2 3 4 (by decide) (by decide)⟩

/-- C4 (amended): the textarea change handler preserves the 500-character
bound on the input text (it refuses longer values), and the send operation
preserves it (it writes only the empty string); the suggested-question
handler performs no check of its own and preserves the bound exactly when
the question text is itself within the bound (see the counterexample). -/
theorem input_bound_writers_amended :
    (∀ st v, st.inputValue.length ≤ 500 →
      ((handleInputChange st v).inputValue).length ≤ 500)
    ∧ (∀ st mt outcome uid aid t1 t2 t3 t4, st.inputValue.length ≤ 500 →
      ((handleSendMessage st mt outcome uid aid t1 t2 t3 t4).inputValue).length ≤ 500)
    ∧ (∀ st d, d.length ≤ 500 →
      ((handleSuggestedQuestion st d).inputValue).length ≤ 500) := by
  refine ⟨?_, ?_, ?_⟩
  · intro st v h
    by_cases hv : v.length ≤ 500
    · rw [handleInputChange, if_pos hv]
      exact hv
    · rw [handleInputChange, if_neg hv]
      exact h
  · intro st mt outcome uid aid t1 t2 t3 t4 h
    by_cases hg : textToSend st mt = "" ∨ st.activeConversationId = ""
    · rw [handleSendMessage, if_pos hg]
      exact h
    · rw [handleSendMessage_of_guard st mt outcome uid aid t1 t2 t3 t4
        (not_or.mp hg).1 (not_or.mp hg).2]
      show ("" : String).length ≤ 500
      decide
  · intro st d h
    exact h

/-- Concrete state for the C4 witness. -/
def stBound : ChatState :=
  { conversations := [createNewConversation "conv-4w" "m4w" 0]
    activeConversationId := "conv-4w"
    inputValue := "short draft"
    isTyping := false }

/-- Witness for C4: concrete in-bound writes through the change handler
and the suggested-question handler keep the input within 500 characters. -/
theorem input_bound_witness :
    ((handleInputChange stBound "How do I reset my password?").inputValue).length ≤ 500
    ∧ ((handleSuggestedQuestion stBound "What is your refund policy?").inputValue).length
        ≤ 500 :=
  ⟨input_bound_writers_amended.1 stBound "How do I reset my password?" (by decide),
   input_bound_writers_amended.2.2 stBound "What is your refund policy?" (by decide)⟩

/-- Concrete state for the C4 counterexample. -/
def stC4 : ChatState :=
  { conversations := [createNewConversation "conv-4" "m4" 0]
    activeConversationId := "conv-4"
    inputValue := ""
    isTyping := false }

/-- A 501-character suggested question. -/
def longQuestion : String := String.mk (List.replicate 501 'a')

/-- Counterexample to C4 as stated: the `send-suggested-question` listener
writes `e.detail` into the input with no length check, so a 501-character
question takes a state satisfying the 500-character bound to one violating
it. -/
theorem suggested_question_breaks_bound :
    stC4.inputValue.length ≤ 500
    ∧ 500 < ((handleSuggestedQuestion stC4 longQuestion).inputValue).length := by
  refine ⟨by decide, ?_⟩
  show 500 < longQuestion.length
  rw [longQuestion, String.length_mk, List.length_replicate]
  decide

/-- C9 (amended): in every state with the loading flag set, the send
button is disabled (`!inputValue.trim() || isTyping`) and the quick-reply
chips are not rendered, so neither can start a second agent call; the
Enter-key handler, however, never consults the loading flag (see the
counterexample). -/
theorem pending_disables_button_and_chips (st : ChatState) (h : st.isTyping = true) :
    sendButtonDisabled st = true ∧ quickRepliesShown st = false := by
  rw [sendButtonDisabled, quickRepliesShown, h]
  exact ⟨Bool.or_true _, Bool.and_false _⟩

/-- Witness for C9: a concrete pending state has the send button disabled
and the quick replies hidden. -/
theorem pending_disables_witness :
    sendButtonDisabled
        { conversations := [createNewConversation "conv-9w" "m9w" 0]
          activeConversationId := "conv-9w", inputValue := "x", isTyping := true } = true
    ∧ quickRepliesShown
        { conversations := [createNewConversation "conv-9w" "m9w" 0]
          activeConversationId := "conv-9w", inputValue := "x", isTyping := true } = false :=
  pending_disables_button_and_chips
    { conversations := [createNewConversation "conv-9w" "m9w" 0]
      activeConversationId := "conv-9w", inputValue := "x", isTyping := true } rfl

/-- Base state for the C9 counterexample. -/
def stC9base : ChatState :=
  { conversations := [createNewConversation "conv-9" "m9" 0]
    activeConversationId := "conv-9"
    inputValue := "First question"
    isTyping := false }

/-- The C9 counterexample state, reached by submitting the first question
(the call is still pending, so the typing flag is set) and then typing a
second question into the textarea — which stays enabled during the call. -/
def stC9pending : ChatState :=
  handleInputChange (handleSendMessagePending stC9base none "u9" 1 2) "Another question"

/-- Counterexample to C9 as stated: in a reachable state with the loading
flag set, pressing Enter (without Shift) runs `handleSendMessage()`, whose
guard does not consult the loading flag, so a second outbound agent call
is started while the first is pending — even though the send button is
disabled in that very state. -/
theorem enter_key_during_pending_call :
    stC9pending.isTyping = true
    ∧ keyDownStartsCall stC9pending { key := "Enter", shiftKey := false } = true
    ∧ sendButtonDisabled stC9pending = true := by
  exact ⟨by decide, by decide, by decide⟩

/-- C5: serialising a conversation list to its stored form and applying
the load transformation (reviving both timestamp positions) is the
identity: same conversations in the same order, same messages in the same
order, same field values and timestamps. -/
theorem storage_roundtrip_eq (cs : List Conversation) (_hne : cs ≠ []) :
    loadTransform (serializeConversations cs) = cs := by
  rw [loadTransform, serializeConversations, List.map_map]
  have : reviveConversation ∘ serializeConversation = id := by
    funext c
    exact reviveConversation_serializeConversation c
  rw [this, List.map_id]

/-- A populated conversation for the C5 witness, exercising both optional
and present agent-message fields and a realistic epoch timestamp. -/
def sampleStoredConv : Conversation :=
  { id := "conv-5"
    title := "Pricing"
    preview := "We offer three plans..."
    timestamp := 1700000000000
    messages :=
      [welcomeMessage "m0" 1690000000000
       , mkUserMessage "u1" "Pricing" 1690000000500
       , { id := "a1", role := .agent, content := "We offer three plans"
           timestamp := 1690000001000, confidence := some 1
           sources := some ["https://example.com/pricing"]
           suggested_followup := some ["What does the Pro plan include?"] }] }

/-- Witness for C5: the concrete one-conversation store round-trips
unchanged. -/
theorem storage_roundtrip_witness :
    loadTransform (serializeConversations [sampleStoredConv]) = [sampleStoredConv] :=
  storage_roundtrip_eq [sampleStoredConv] (by simp)

end SupportChat





